import Mathlib

/-!
Verification development for the pwnagotchi SSH web terminal plugin
(`src/ssh.py`).  The classes `WebTerminalSession` and `WebTerminalManager`
are shallowly embedded: machine time is a `Nat` of seconds, byte strings
are `List Nat` (each entry `< 256`), decoded text is a `List Nat` of
Unicode code points, and Python `str` inputs are `List Char`.  External
effects (the OS `write`, process spawn, process liveness probes) enter the
model as explicit boolean parameters recording whether the effect
succeeded.
-/

set_option autoImplicit false
set_option maxRecDepth 8000

namespace SSHWebTerm

/-- Capacity of the session output queue: `queue.Queue(maxsize=1000)`
in `WebTerminalSession.__init__` (src/ssh.py line 40). -/
def maxBuffer : Nat := 1000

/-- Idle timeout in seconds used by `is_alive` (src/ssh.py line 253). -/
def idleTimeout : Nat := 1800

/-- The `max_sessions` entry of the plugin's default options dictionary
(`SSH.__init__`, src/ssh.py line 335). -/
def max_sessions : Nat := 5

/-- State of one `WebTerminalSession` (src/ssh.py lines 35-50).
`outputBuffer` models the `queue.Queue` as a list with the oldest chunk at
the head; each chunk is the list of code points of the decoded text.
`commandHistory` holds commands as lists of characters. -/
structure WebTerminalSession where
  sessionId : String
  active : Bool
  createdAt : Nat
  lastActivity : Nat
  outputBuffer : List (List Nat)
  commandHistory : List (List Char)
  deriving Repr, DecidableEq

/-- Python `str.isspace` on a single character: the character class that
`str.strip()` removes from both ends. -/
def pyIsSpace (c : Char) : Bool :=
  let n := c.toNat
  (0x09 ≤ n && n ≤ 0x0D) || n == 0x20 || (0x1C ≤ n && n ≤ 0x1F) ||
  n == 0x85 || n == 0xA0 || n == 0x1680 || (0x2000 ≤ n && n ≤ 0x200A) ||
  n == 0x2028 || n == 0x2029 || n == 0x202F || n == 0x205F || n == 0x3000

/-- Python `data.strip()`: drop whitespace from both ends. -/
def pyStrip (data : List Char) : List Char :=
  ((data.dropWhile pyIsSpace).reverse.dropWhile pyIsSpace).reverse

/-- Is `b` a UTF-8 continuation byte (`0x80-0xBF`)? -/
def isCont (b : Nat) : Bool := 0x80 ≤ b && b ≤ 0xBF

/-- Is `c1` admissible as the first continuation byte after lead byte `b`
of a three- or four-byte UTF-8 sequence?  Encodes the restricted ranges
for `0xE0` (no overlong), `0xED` (no surrogates), `0xF0` (no overlong)
and `0xF4` (not above `U+10FFFF`). -/
def firstContOk (b c1 : Nat) : Bool :=
  if b = 0xE0 then 0xA0 ≤ c1 && c1 ≤ 0xBF
  else if b = 0xED then 0x80 ≤ c1 && c1 ≤ 0x9F
  else if b = 0xF0 then 0x90 ≤ c1 && c1 ≤ 0xBF
  else if b = 0xF4 then 0x80 ≤ c1 && c1 ≤ 0x8F
  else isCont c1

/-- Parse one UTF-8 sequence whose lead byte is `b` and whose following
bytes are `bs`: `(some cp, k)` on success, `(none, k)` on error, where
`k` is how many bytes of `bs` were consumed in addition to the lead
byte.  On error `k` is the length of the longest valid prefix of the
sequence minus one, CPython's "maximal subpart" recovery. -/
def utf8Step (b : Nat) (bs : List Nat) : Option Nat × Nat :=
  if b ≤ 0x7F then (some b, 0)
  else if 0xC2 ≤ b ∧ b ≤ 0xDF then
    match bs with
    | c1 :: _ =>
      if isCont c1 then (some ((b - 0xC0) * 0x40 + (c1 - 0x80)), 1)
      else (none, 0)
    | [] => (none, 0)
  else if 0xE0 ≤ b ∧ b ≤ 0xEF then
    match bs with
    | c1 :: bs1 =>
      if firstContOk b c1 then
        match bs1 with
        | c2 :: _ =>
          if isCont c2 then
            (some ((b - 0xE0) * 0x1000 + (c1 - 0x80) * 0x40 + (c2 - 0x80)), 2)
          else (none, 1)
        | [] => (none, 1)
      else (none, 0)
    | [] => (none, 0)
  else if 0xF0 ≤ b ∧ b ≤ 0xF4 then
    match bs with
    | c1 :: bs1 =>
      if firstContOk b c1 then
        match bs1 with
        | c2 :: bs2 =>
          if isCont c2 then
            match bs2 with
            | c3 :: _ =>
              if isCont c3 then
                (some ((b - 0xF0) * 0x40000 + (c1 - 0x80) * 0x1000 +
                  (c2 - 0x80) * 0x40 + (c3 - 0x80)), 3)
              else (none, 2)
            | [] => (none, 2)
          else (none, 1)
        | [] => (none, 1)
      else (none, 0)
    | [] => (none, 0)
  else (none, 0)

/-- Recursion core of the UTF-8 decoder.  Each step consumes at least the
lead byte, so running it with fuel equal to the input length never hits
the fuel-exhausted case; fuel merely makes the recursion structural. -/
def decodeUtf8Go (errOut : List Nat) : Nat → List Nat → List Nat
  | _, [] => []
  | 0, _ => []
  | fuel + 1, b :: bs =>
    match utf8Step b bs with
    | (some cp, k) => cp :: decodeUtf8Go errOut fuel (bs.drop k)
    | (none, k) => errOut ++ decodeUtf8Go errOut fuel (bs.drop k)

/-- UTF-8 decoder underlying `data.decode('utf-8', errors=...)` in the
output pump (src/ssh.py line 163).  `errOut` is what an undecodable
sequence contributes to the output: `[]` models `errors='ignore'` (the
source's choice), `[0xFFFD]` would model `errors='replace'`.  Each
invalid sequence consumes its longest valid prefix (always at least the
lead byte) and the scan resumes at the next byte. -/
def decodeUtf8 (errOut : List Nat) (l : List Nat) : List Nat :=
  decodeUtf8Go errOut l.length l

/-- The decode step actually performed by the pump:
`data.decode('utf-8', errors='ignore')` (src/ssh.py line 163). -/
def pumpDecode (data : List Nat) : List Nat := decodeUtf8 [] data

/-- `queue.Queue(maxsize=1000).put(chunk)`: when the queue has room the
chunk is appended at the back and the call completes (`some`); when the
queue is full the call blocks the calling thread until a consumer removes
an item, which the sequential model records as `none` (the put does not
complete and the queue is unchanged). -/
def queuePut (q : List (List Nat)) (chunk : List Nat) : Option (List (List Nat)) :=
  if q.length < maxBuffer then some (q ++ [chunk]) else none

/-- One iteration of the body of `_read_unix_output` (src/ssh.py lines
157-167) in which `select` reported the descriptor ready and `os.read`
returned `data`.  Nonempty `data` is decoded (`errors='ignore'`) and put
into the output queue (`none` when the put blocks on a full queue);
empty `data` is EOF, which breaks the loop and then sets
`self.active = False`. -/
def readUnixOutputIter (s : WebTerminalSession) (data : List Nat) (now : Nat) :
    Option WebTerminalSession :=
  if data ≠ [] then
    match queuePut s.outputBuffer (pumpDecode data) with
    | some q => some { s with outputBuffer := q, lastActivity := now }
    | none => none
  else
    some { s with active := false }

/-- The command-history block of `write_input` (src/ssh.py lines 180-187):
when `data` ends in a newline and strips to something nonempty, the
stripped command is appended unless it already occurs anywhere in the
history, and a history that then exceeds 50 entries loses its oldest
entry (`pop(0)`). -/
def updateHistory (history : List (List Char)) (data : List Char) : List (List Char) :=
  if data.getLast? = some '\n' ∧ pyStrip data ≠ [] then
    if pyStrip data ∈ history then history
    else if 50 < (history ++ [pyStrip data]).length then (history ++ [pyStrip data]).tail
    else history ++ [pyStrip data]
  else history

/-- `WebTerminalSession.write_input` (src/ssh.py lines 174-201).
`writeOk` records whether the `os.write` on the pty master succeeds; when
it raises, the history update has already happened, `last_activity` is
not refreshed, the session is deactivated and `False` is returned. -/
def write_input (s : WebTerminalSession) (data : List Char) (writeOk : Bool)
    (now : Nat) : Bool × WebTerminalSession :=
  if s.active = false then (false, s)
  else
    let s1 := { s with commandHistory := updateHistory s.commandHistory data }
    if writeOk then (true, { s1 with lastActivity := now })
    else (false, { s1 with active := false })

/-- `WebTerminalSession.read_output` (src/ssh.py lines 203-212): drain the
queue front to back, concatenating the chunks; the empty concatenation is
the empty string. -/
def read_output (s : WebTerminalSession) : List Nat × WebTerminalSession :=
  (s.outputBuffer.flatten, { s with outputBuffer := [] })

/-- `WebTerminalSession.close` (src/ssh.py lines 226-245): deactivates the
session; terminating the child process and closing the descriptor are
external effects with no further state in the model. -/
def close (s : WebTerminalSession) : WebTerminalSession := { s with active := false }

/-- `WebTerminalSession.is_alive` (src/ssh.py lines 247-264).  `now` is
`time.time()` and `procAlive` records the outcome of the platform
liveness probe (`os.kill(pid, 0)` on Unix).  Natural subtraction agrees
with the Python float subtraction here: when `now < lastActivity` both
comparisons with 1800 are false. -/
def is_alive (s : WebTerminalSession) (now : Nat) (procAlive : Bool) :
    Bool × WebTerminalSession :=
  if s.active = false then (false, s)
  else if idleTimeout < now - s.lastActivity then (false, close s)
  else (procAlive, s)

/-- `WebTerminalSession.__init__` (src/ssh.py lines 35-50) followed by
`_init_unix_terminal` (lines 95-137): `active` starts `True` and is reset
to `False` exactly when the spawn raises, so afterwards
`active = spawnOk`; both buffers start empty and both timestamps are the
creation time. -/
def mkSession (sessionId : String) (now : Nat) (spawnOk : Bool) : WebTerminalSession :=
  { sessionId := sessionId, active := spawnOk, createdAt := now,
    lastActivity := now, outputBuffer := [], commandHistory := [] }

/-- State of `WebTerminalManager` (src/ssh.py lines 270-274): the
`sessions` dict as an association list with unique keys in insertion
order, plus the id counter. -/
structure WebTerminalManager where
  sessions : List (String × WebTerminalSession)
  sessionCounter : Nat
  deriving Repr, DecidableEq

/-- `self.sessions.get(session_id)`. -/
def dictGet (d : List (String × WebTerminalSession)) (k : String) :
    Option WebTerminalSession :=
  (d.find? (fun p => p.1 == k)).map (fun p => p.2)

/-- `self.sessions[session_id] = session`: overwrite an existing key,
otherwise append. -/
def dictInsert (d : List (String × WebTerminalSession)) (k : String)
    (v : WebTerminalSession) : List (String × WebTerminalSession) :=
  if (d.find? (fun p => p.1 == k)).isSome then
    d.map (fun p => if p.1 == k then (k, v) else p)
  else d ++ [(k, v)]

/-- `del self.sessions[session_id]`. -/
def dictDelete (d : List (String × WebTerminalSession)) (k : String) :
    List (String × WebTerminalSession) :=
  d.filter (fun p => !(p.1 == k))

/-- The fresh manager built by `WebTerminalManager.__init__`
(src/ssh.py lines 270-274). -/
def initManager : WebTerminalManager := { sessions := [], sessionCounter := 0 }

/-- `WebTerminalManager.create_session` (src/ssh.py lines 276-288): build
the id from the current time and the counter, bump the counter, construct
the session, and insert it only when it came up active; on construction
failure return `None` with the map untouched.  There is no check of any
session count. -/
def create_session (m : WebTerminalManager) (now : Nat) (spawnOk : Bool) :
    Option String × WebTerminalManager :=
  let sessionId := "term_" ++ toString now ++ "_" ++ toString m.sessionCounter
  let m1 : WebTerminalManager := { m with sessionCounter := m.sessionCounter + 1 }
  let session := mkSession sessionId now spawnOk
  if session.active then
    (some sessionId, { m1 with sessions := dictInsert m1.sessions sessionId session })
  else
    (none, m1)

/-- `WebTerminalManager.close_session` (src/ssh.py lines 294-300): look
the id up; when present, close the session and delete the key; when
absent, do nothing. -/
def close_session (m : WebTerminalManager) (sessionId : String) : WebTerminalManager :=
  match dictGet m.sessions sessionId with
  | some _ => { m with sessions := dictDelete m.sessions sessionId }
  | none => m

/-- The `api/terminal/<id>/close` branch of `SSH.on_webhook`
(src/ssh.py lines 485-488): call `close_session` and answer
`{'success': True}` unconditionally. -/
def on_webhook_close (m : WebTerminalManager) (sessionId : String) :
    WebTerminalManager × Bool :=
  (close_session m sessionId, true)

/-- Iterated `create_session`, each call at time 0 with a successful
spawn. -/
def createN : Nat → WebTerminalManager → WebTerminalManager
  | 0, m => m
  | n + 1, m => createN n (create_session m 0 true).2

/-- A sequence of `write_input` calls, each event carrying the input
text, the `os.write` outcome and the call time. -/
def runWrites (s : WebTerminalSession) : List (List Char × Bool × Nat) → WebTerminalSession
  | [] => s
  | (d, w, t) :: rest => runWrites (write_input s d w t).2 rest

/-- A session whose output queue is at its 1000-chunk capacity. -/
def fullSession : WebTerminalSession :=
  { mkSession "term_0_0" 0 true with outputBuffer := List.replicate 1000 [65] }

/-- A session whose history holds `"a"` and then `"b"`. -/
def sessionAB : WebTerminalSession :=
  { mkSession "term_0_0" 0 true with commandHistory := [['a'], ['b']] }

/-- A fresh, active session with empty history. -/
def freshSession : WebTerminalSession := mkSession "term_0_0" 0 true

/-! Helper lemmas shared by several claim theorems. -/

/-- The history after `write_input` is `updateHistory` of the old history
when the session is active, and untouched otherwise — on both the
success and the failed-write path. -/
theorem write_input_history (s : WebTerminalSession) (d : List Char) (w : Bool) (t : Nat) :
    (write_input s d w t).2.commandHistory =
      if s.active = true then updateHistory s.commandHistory d else s.commandHistory := by
  cases hs : s.active <;> cases w <;> simp [write_input, hs]

/-- One history update keeps the 50-entry bound. -/
theorem updateHistory_length_le (h : List (List Char)) (d : List Char)
    (hle : h.length ≤ 50) : (updateHistory h d).length ≤ 50 := by
  unfold updateHistory
  split
  · split
    · exact hle
    · split
      · simp only [List.length_tail, List.length_append, List.length_singleton]
        omega
      · rename_i hng
        simp only [List.length_append, List.length_singleton] at hng ⊢
        omega
  · exact hle

/-- Any sequence of `write_input` calls keeps the 50-entry bound. -/
theorem runWrites_history_le (evs : List (List Char × Bool × Nat)) (s : WebTerminalSession)
    (hle : s.commandHistory.length ≤ 50) :
    (runWrites s evs).commandHistory.length ≤ 50 := by
  induction evs generalizing s with
  | nil => exact hle
  | cons e rest ih =>
    obtain ⟨d, w, t⟩ := e
    refine ih (write_input s d w t).2 ?_
    rw [write_input_history]
    split
    · exact updateHistory_length_le _ _ hle
    · exact hle

/-- When the history holds 50 entries and an update changes it, the
result drops the oldest entry and appends the new command at the back. -/
theorem updateHistory_evict (h : List (List Char)) (d : List Char)
    (hlen : h.length = 50) (hne : updateHistory h d ≠ h) :
    updateHistory h d = h.tail ++ [pyStrip d] := by
  unfold updateHistory at hne ⊢
  split at hne
  · rename_i hcond
    rw [if_pos hcond]
    split at hne
    · exact absurd rfl hne
    · rename_i hnm
      rw [if_neg hnm, if_pos (by simp [hlen])]
      cases h with
      | nil => simp at hlen
      | cons a t => simp
  · exact absurd rfl hne

/-- Looking a key up after deleting it yields nothing. -/
theorem dictGet_dictDelete (d : List (String × WebTerminalSession)) (k : String) :
    dictGet (dictDelete d k) k = none := by
  induction d with
  | nil => rfl
  | cons a rest ih =>
    unfold dictDelete dictGet at ih ⊢
    cases hak : (a.1 == k) <;> simp [List.filter_cons, hak, ih]

/-- `close_session` on an absent id returns the manager unchanged. -/
theorem close_session_absent (m : WebTerminalManager) (sid : String)
    (hg : dictGet m.sessions sid = none) : close_session m sid = m := by
  unfold close_session
  rw [hg]

/-- `close_session` on a present id deletes the key. -/
theorem close_session_present (m : WebTerminalManager) (sid : String)
    (x : WebTerminalSession) (hg : dictGet m.sessions sid = some x) :
    close_session m sid = { m with sessions := dictDelete m.sessions sid } := by
  unfold close_session
  rw [hg]

/-- After any `close_session` call the id no longer resolves. -/
theorem dictGet_close_session (m : WebTerminalManager) (sid : String) :
    dictGet (close_session m sid).sessions sid = none := by
  cases hg : dictGet m.sessions sid with
  | none => rw [close_session_absent m sid hg]; exact hg
  | some x => rw [close_session_present m sid x hg]; exact dictGet_dictDelete _ _

/-! Claim theorems. -/

/-- C1: the claim says a `create_session` call made while the registry
already holds `max_sessions = 5` sessions fails with a capacity error.
The code never consults `max_sessions`: six successful creations on a
fresh manager leave six entries in the map. -/
theorem C1_no_capacity_check :
    max_sessions = 5 ∧ (createN 6 initManager).sessions.length = 6 :=
  ⟨rfl, by decide⟩

/-- C2 counterexample: with the output buffer at its 1000-chunk capacity,
the pump's enqueue of one more chunk does not complete (the blocking
`queue.Queue.put` is modelled as `none`): the oldest chunk is not
dropped and the producer does not proceed. -/
theorem C2_full_put_blocks : readUnixOutputIter fullSession [65] 7 = none := by
  decide

/-- C2 (amended): on a full 1000-chunk buffer the pump's put blocks the
producer and drops nothing; below capacity the chunk is appended at the
back in FIFO order and the activity timestamp is refreshed. -/
theorem C2_pump_backpressure (s : WebTerminalSession) (data : List Nat) (now : Nat)
    (hdata : data ≠ []) :
    (s.outputBuffer.length = maxBuffer → readUnixOutputIter s data now = none)
    ∧ (s.outputBuffer.length < maxBuffer →
       readUnixOutputIter s data now =
         some { s with outputBuffer := s.outputBuffer ++ [pumpDecode data],
                       lastActivity := now }) := by
  constructor
  · intro hfull
    simp [readUnixOutputIter, hdata, queuePut, hfull]
  · intro hroom
    simp [readUnixOutputIter, hdata, queuePut, hroom]

/-- Witness for C2: the amended theorem at a concrete full buffer. -/
theorem C2_witness : readUnixOutputIter fullSession [66] 7 = none :=
  (C2_pump_backpressure fullSession [66] 7 (by decide)).1 (by decide)

/-- C3 counterexample: with history `["a", "b"]`, the input `"a\n"` ends
in a newline, strips to the nonempty `"a"`, and differs from the last
entry `"b"`, so the claim says it is recorded again; the code checks
membership in the whole history and leaves it unchanged. -/
theorem C3_dedup_whole_history :
    pyStrip ['a', '\n'] = ['a']
    ∧ sessionAB.commandHistory.getLast? = some ['b']
    ∧ (write_input sessionAB ['a', '\n'] true 1).2.commandHistory = [['a'], ['b']] := by
  decide

/-- C3 (amended): on an active session, `write_input` records the
stripped command iff the input ends in a newline, strips to something
nonempty, and the stripped command occurs nowhere in the history —
deduplication is against the whole history, so a command that appeared
earlier but not last is not recorded again. -/
theorem C3_history_append_iff (s : WebTerminalSession) (data : List Char)
    (writeOk : Bool) (now : Nat) (hact : s.active = true) :
    (write_input s data writeOk now).2.commandHistory = updateHistory s.commandHistory data
    ∧ (pyStrip data ∈ s.commandHistory →
        updateHistory s.commandHistory data = s.commandHistory)
    ∧ (data.getLast? = some '\n' → pyStrip data ≠ [] →
        pyStrip data ∉ s.commandHistory → s.commandHistory.length < 50 →
        updateHistory s.commandHistory data = s.commandHistory ++ [pyStrip data]) := by
  refine ⟨?_, ?_, ?_⟩
  · rw [write_input_history, if_pos hact]
  · intro hmem
    simp [updateHistory, hmem]
  · intro hnl hne hnmem hlen
    unfold updateHistory
    rw [if_pos ⟨hnl, hne⟩, if_neg hnmem,
      if_neg (by simp only [List.length_append, List.length_singleton]; omega)]

/-- Witness for C3: a genuinely new command is appended. -/
theorem C3_witness :
    updateHistory sessionAB.commandHistory ['c', '\n'] =
      sessionAB.commandHistory ++ [pyStrip ['c', '\n']] :=
  (C3_history_append_iff sessionAB ['c', '\n'] true 1 (by decide)).2.2
    (by decide) (by decide) (by decide) (by decide)

/-- C4 counterexample: on an active fresh session, a `write_input` whose
underlying `os.write` fails returns `False`, yet the command history has
already been extended — the claim that a `False` return always leaves
the history unchanged is wrong. -/
theorem C4_history_on_failed_write :
    (write_input freshSession ['l', 's', '\n'] false 1).1 = false
    ∧ (write_input freshSession ['l', 's', '\n'] false 1).2.commandHistory
        ≠ freshSession.commandHistory := by
  decide

/-- C4 (amended): `write_input` returns `False` exactly when the session
is inactive or the underlying write fails; an inactive session is left
untouched, but on a failed write the history update has already been
applied (the append precedes the write), so the history can change on
the failure path. -/
theorem C4_failure_semantics (s : WebTerminalSession) (data : List Char)
    (writeOk : Bool) (now : Nat) :
    ((write_input s data writeOk now).1 = false ↔ s.active = false ∨ writeOk = false)
    ∧ (s.active = false → (write_input s data writeOk now).2 = s)
    ∧ (s.active = true → writeOk = false →
        (write_input s data writeOk now).1 = false
        ∧ (write_input s data writeOk now).2.commandHistory =
            updateHistory s.commandHistory data) := by
  cases hs : s.active <;> cases writeOk <;> simp [write_input, hs]

/-- Witness for C4: the amended theorem at the failed-write input. -/
theorem C4_witness :
    (write_input freshSession ['l', 's', '\n'] false 1).1 = false
    ∧ (write_input freshSession ['l', 's', '\n'] false 1).2.commandHistory =
        updateHistory freshSession.commandHistory ['l', 's', '\n'] :=
  (C4_failure_semantics freshSession ['l', 's', '\n'] false 1).2.2 rfl rfl

/-- C5: starting from any history within the 50-entry cap (in particular
the empty history every session starts with), every sequence of
`write_input` calls keeps the history at 50 entries or fewer; and
whenever an update changes a 50-entry history, the oldest entry is the
one evicted and the new command goes to the back. -/
theorem C5_history_cap (evs : List (List Char × Bool × Nat)) (s : WebTerminalSession)
    (hle : s.commandHistory.length ≤ 50) :
    (runWrites s evs).commandHistory.length ≤ 50
    ∧ ∀ h d, h.length = 50 → updateHistory h d ≠ h →
        updateHistory h d = h.tail ++ [pyStrip d] :=
  ⟨runWrites_history_le evs s hle, fun h d hl hne => updateHistory_evict h d hl hne⟩

/-- Witness for C5: two writes on a fresh session stay within the cap. -/
theorem C5_witness :
    (runWrites freshSession
      [(['l', 's', '\n'], true, 1), (['p', 'w', 'd', '\n'], true, 2)]).commandHistory.length
      ≤ 50 :=
  (C5_history_cap [(['l', 's', '\n'], true, 1), (['p', 'w', 'd', '\n'], true, 2)]
    freshSession (by decide)).1

/-- C6: `read_output` returns the concatenation of the queued chunks in
FIFO order, leaves the buffer empty and everything else unchanged,
returns the empty string on an empty buffer, and a chunk enqueued at the
back appears after all earlier output — in any session state, with no
failure path. -/
theorem C6_read_output (s : WebTerminalSession) (c : List Nat) :
    (read_output s).1 = s.outputBuffer.flatten
    ∧ (read_output s).2 = { s with outputBuffer := [] }
    ∧ (read_output { s with outputBuffer := [] }).1 = []
    ∧ (read_output { s with outputBuffer := s.outputBuffer ++ [c] }).1 =
        (read_output s).1 ++ c := by
  refine ⟨rfl, rfl, rfl, ?_⟩
  simp [read_output]

/-- C7: `close_session` is idempotent, an absent id is a no-op, the
webhook close endpoint always answers success, and after any
`close_session` call the id no longer resolves in the map. -/
theorem C7_close_idempotent (m : WebTerminalManager) (sid : String) :
    close_session (close_session m sid) sid = close_session m sid
    ∧ dictGet (close_session m sid).sessions sid = none
    ∧ (dictGet m.sessions sid = none → close_session m sid = m)
    ∧ (on_webhook_close m sid).2 = true :=
  ⟨close_session_absent _ _ (dictGet_close_session m sid),
   dictGet_close_session m sid,
   fun hg => close_session_absent m sid hg,
   rfl⟩

/-- Witness for C7: closing an id on the fresh empty manager is a no-op. -/
theorem C7_witness : close_session initManager "term_0_0" = initManager :=
  (C7_close_idempotent initManager "term_0_0").2.2.1 rfl

/-- C8: on an active session, `is_alive` with more than 1800 seconds of
idleness closes the session (deactivating it) and returns false; within
the timeout it returns the process liveness probe and leaves the session
unchanged. -/
theorem C8_is_alive (s : WebTerminalSession) (now : Nat) (procAlive : Bool)
    (hact : s.active = true) :
    (idleTimeout < now - s.lastActivity →
        is_alive s now procAlive = (false, close s)
        ∧ (is_alive s now procAlive).2.active = false)
    ∧ (¬ idleTimeout < now - s.lastActivity →
        is_alive s now procAlive = (procAlive, s)) := by
  constructor
  · intro hto
    simp [is_alive, hact, hto, close]
  · intro hto
    simp [is_alive, hact, hto]

/-- Witness for C8: a session idle for 2000 seconds is closed. -/
theorem C8_witness :
    is_alive freshSession 2000 true = (false, close freshSession)
    ∧ (is_alive freshSession 2000 true).2.active = false :=
  (C8_is_alive freshSession 2000 true (by decide)).1 (by decide)

/-- C10: when session construction fails (the fresh session is not
active after the spawn), `create_session` returns `None` and the
sessions map is exactly what it was before the call. -/
theorem C10_create_fail (m : WebTerminalManager) (now : Nat) :
    (create_session m now false).1 = none
    ∧ (create_session m now false).2.sessions = m.sessions := by
  constructor <;> simp [create_session, mkSession]

/-- C9 counterexample: the pump decodes with `errors='ignore'`, so the
invalid byte `0xFF` contributes nothing to the output — it is silently
discarded, not turned into the replacement character `U+FFFD` as the
claim states. -/
theorem C9_invalid_byte_dropped :
    pumpDecode [0xFF] = [] ∧ pumpDecode [0xFF] ≠ [0xFFFD] := by
  decide

/-- C9 (amended): the pump's decode step never fails — it is total, and
an invalid lead byte is skipped, contributing nothing to the decoded
output (`errors='ignore'` discards invalid sequences rather than
replacing them). -/
theorem C9_ignore_skips_invalid (b : Nat) (bs : List Nat)
    (hb : (0x80 ≤ b ∧ b ≤ 0xC1) ∨ (0xF5 ≤ b ∧ b ≤ 0xFF)) :
    pumpDecode (b :: bs) = pumpDecode bs := by
  have hstep : utf8Step b bs = (none, 0) := by
    unfold utf8Step
    rcases hb with ⟨h1, h2⟩ | ⟨h1, h2⟩ <;>
      rw [if_neg (by omega), if_neg (by omega), if_neg (by omega), if_neg (by omega)]
  show decodeUtf8 [] (b :: bs) = decodeUtf8 [] bs
  unfold decodeUtf8
  simp only [List.length_cons, decodeUtf8Go, hstep, List.drop_zero, List.nil_append]

/-- Witness for C9: `0xFF` before valid ASCII decodes as if absent. -/
theorem C9_witness : pumpDecode (0xFF :: [0x48]) = pumpDecode [0x48] :=
  C9_ignore_skips_invalid 0xFF [0x48] (Or.inr (by decide))

end SSHWebTerm
